import Mathlib

/-!
Formal model of the detection-and-response core of `ml_defender.py`
(class `AdvancedRansomwareDefender`), as a shallow embedding:

* Python `bytes` values are `List ℕ` of byte values; `str` values are
  `String`, with explicit ASCII helpers mirroring `str.lower`,
  `str.startswith`, `str.endswith` and the `in` substring test.
* Python exceptions are `Except PyErr`; a `try/except` block is a `match`
  on the `Except` value.  I/O outcomes (file reads, `os.listdir`,
  `shutil.move`, `os.system`, SMTP delivery, process kills) are inputs of
  the model, supplied by environment records.
* `datetime` instants are integers, measured in whole seconds (every
  duration constant in the program — the 60 s retention window, the 10 s
  burst span, the cooldown in whole minutes — is a whole second, so
  integer instants cover all boundary cases); `timedelta.seconds` on a
  difference of `d` seconds is `d % 86400` (Python normalizes a
  timedelta into days / seconds / microseconds).
* The several `datetime.now()` calls made while handling one event
  (`on_modified` lines 179, 183, 160, 198) are modelled as a single
  instant `e.now`: the handler is treated as running instantaneously.
-/

namespace MLDefender

/-- Python exception values relevant to the modelled code paths. -/
inductive PyErr where
  | attributeError
  | osError
  | permissionError
  | noSuchProcess
  | accessDenied
  | smtpError
deriving DecidableEq, Repr

/-- ASCII lowering of one character, mirroring `str.lower` on the ASCII
paths that appear in the program. -/
def lowerChar (c : Char) : Char :=
  if 'A' ≤ c ∧ c ≤ 'Z' then Char.ofNat (c.toNat + 32) else c

/-- Model of Python `s.lower()`. -/
def pyLower (s : String) : String := ⟨s.data.map lowerChar⟩

/-- Model of Python `s.startswith(p)`. -/
def pyStartsWith (s p : String) : Bool := p.data.isPrefixOf s.data

/-- Model of Python `s.endswith(p)`. -/
def pyEndsWith (s p : String) : Bool := p.data.reverse.isPrefixOf s.data.reverse

/-- Substring test on character lists, mirroring Python `sub in s`. -/
def containsSeq : List Char → List Char → Bool
  | needle, [] => needle.isEmpty
  | needle, c :: rest => needle.isPrefixOf (c :: rest) || containsSeq needle rest

/-- Model of Python `sub in s` for strings. -/
def pyIn (sub s : String) : Bool := containsSeq sub.data s.data

/-- Leading bytes of a PNG file, Python literal `b'\x89PNG'`. -/
def pngMagic : List ℕ := [0x89, 0x50, 0x4E, 0x47]

/-- Leading bytes of a JPEG file, Python literal `b'\xFF\xD8'`. -/
def jpegMagic : List ℕ := [0xFF, 0xD8]

/-- Leading bytes of a PDF file, Python literal `b'%PDF'`. -/
def pdfMagic : List ℕ := [0x25, 0x50, 0x44, 0x46]

/-- One iteration of the `for x in range(256)` loop of
`_calculate_entropy` (lines 128-131).  The loop body computes
`p_x = data.count(x)/len(data)`, a Python `float`, and then evaluates
`p_x.bit_length()`; `float` has no `bit_length` attribute, so the first
`x` whose frequency is positive raises `AttributeError`.  A raised
exception skips the remaining iterations, modelled by the absorbing
`.error` case. -/
def entropyStep (data : List ℕ) (acc : Except PyErr ℚ) (x : ℕ) : Except PyErr ℚ :=
  match acc with
  | .error e => .error e
  | .ok entropy =>
    if 0 < (data.count x : ℚ) / (data.length : ℚ) then .error .attributeError
    else .ok entropy

/-- Model of `_calculate_entropy` (lines 122-132): empty data returns `0`;
otherwise the loop over byte values runs until it raises. -/
def calculateEntropy (data : List ℕ) : Except PyErr ℚ :=
  if data.isEmpty then .ok 0
  else (List.range 256).foldl (entropyStep data) (.ok 0)

/-- Model of `_detect_encryption` (lines 134-152).  The argument is the
outcome of opening the file and reading its leading 8 KiB: `.error` when
`open`/`read` raises, `.ok data` otherwise.  The whole body sits in a
`try` whose `except` logs and falls through to `return False`, so an
exception anywhere (including the `AttributeError` from
`_calculate_entropy`) yields `false`. -/
def detectEncryption (readResult : Except PyErr (List ℕ)) : Bool :=
  match readResult with
  | .error _ => false
  | .ok data =>
    match calculateEntropy data with
    | .error _ => false
    | .ok entropy =>
      if 7 < entropy then true
      else if !(pngMagic.isPrefixOf data) && !(jpegMagic.isPrefixOf data)
              && !(pdfMagic.isPrefixOf data) then true
      else false

/-- An 8192-byte window holding each byte value 0..255 exactly 32 times:
the order-0 byte-frequency Shannon entropy of this window is exactly
8 bits/byte, the profile of a uniformly random window. -/
def uniformWindow : List ℕ := List.flatten (List.replicate 32 (List.range 256))

lemma foldl_entropyStep_error (data : List ℕ) (e : PyErr) :
    ∀ l : List ℕ, l.foldl (entropyStep data) (.error e) = .error e := by
  intro l
  induction l with
  | nil => rfl
  | cons a l ih => simpa [entropyStep] using ih

lemma foldl_entropyStep_hits (data : List ℕ) :
    ∀ (l : List ℕ) (v : ℚ),
      (∃ x ∈ l, 0 < (data.count x : ℚ) / (data.length : ℚ)) →
      l.foldl (entropyStep data) (.ok v) = .error .attributeError := by
  intro l
  induction l with
  | nil =>
    intro v h
    obtain ⟨x, hx, _⟩ := h
    exact absurd hx (List.not_mem_nil x)
  | cons a l ih =>
    intro v h
    by_cases ha : 0 < (data.count a : ℚ) / (data.length : ℚ)
    · have hstep : entropyStep data (.ok v) a = .error .attributeError := by
        simp [entropyStep, ha]
      simp only [List.foldl_cons, hstep]
      exact foldl_entropyStep_error data _ l
    · have hstep : entropyStep data (.ok v) a = .ok v := by
        simp [entropyStep, ha]
      simp only [List.foldl_cons, hstep]
      apply ih
      obtain ⟨x, hx, hxp⟩ := h
      rcases List.mem_cons.mp hx with rfl | hx'
      · exact absurd hxp ha
      · exact ⟨x, hx', hxp⟩

/-- Any nonempty byte window makes `_calculate_entropy` raise
`AttributeError`: the first byte value with positive frequency evaluates
`float.bit_length`, which does not exist. -/
lemma calculateEntropy_raises (data : List ℕ) (b : ℕ) (hb : b < 256)
    (hmem : b ∈ data) : calculateEntropy data = .error .attributeError := by
  have hne : data ≠ [] := List.ne_nil_of_mem hmem
  have hlen : 0 < (data.length : ℚ) := by
    exact_mod_cast List.length_pos.mpr hne
  have hcount : 0 < (data.count b : ℚ) := by
    exact_mod_cast List.count_pos_iff.mpr hmem
  unfold calculateEntropy
  rw [if_neg (by simpa [List.isEmpty_iff] using hne)]
  exact foldl_entropyStep_hits data (List.range 256) 0
    ⟨b, List.mem_range.mpr hb, div_pos hcount hlen⟩

/-- Value of the hard-coded score cap in `on_modified` line 189
(`min(self.suspicion_score + score_increase, 20)`). -/
def MAX_SCORE : ℕ := 20

/-- Detection configuration consumed by the handler: the watched root
(`self.watch_path`), `alert_threshold` (default 10) and
`cooldown_period` in seconds (default 5 minutes = 300 s). -/
structure Config where
  watch_path : String
  alert_threshold : ℕ
  cooldown_period : ℤ

/-- Mutable handler state: `self.suspicion_score`, `self.last_alert`,
`self.file_operations` (the timestamp window of recent modifications). -/
structure DefenderState where
  suspicion_score : ℕ
  last_alert : Option ℤ
  file_operations : List ℤ
deriving DecidableEq, Repr

/-- One filesystem-modification event together with the
environment-dependent inputs consumed while handling it:
`readResult` is the outcome of opening the event's file and reading its
leading 8 KiB (used by `_detect_encryption`), and `ml_anomaly` is the
anomaly-model verdict (`False` whenever no model is loaded, per
`_check_suspicious_activity` lines 161-169). -/
structure EventEnv where
  is_directory : Bool
  src_path : String
  now : ℤ
  readResult : Except PyErr (List ℕ)
  ml_anomaly : Bool

/-- The indicator dictionary built by `_check_suspicious_activity`. -/
structure Indicators where
  suspicious_extension : Bool
  high_entropy : Bool
  mass_modification : Bool
  ml_anomaly : Bool
deriving DecidableEq, Repr

/-- Python `any(indicators.values())` (line 187). -/
def anyIndicator (i : Indicators) : Bool :=
  i.suspicious_extension || i.high_entropy || i.mass_modification || i.ml_anomaly

/-- Python `sum(2 if v else 0 for v in indicators.values())` (line 188). -/
def scoreIncrease (i : Indicators) : ℕ :=
  (if i.suspicious_extension then 2 else 0) + (if i.high_entropy then 2 else 0) +
    (if i.mass_modification then 2 else 0) + (if i.ml_anomaly then 2 else 0)

/-- Number of true entries of an indicator set. -/
def trueCount (i : Indicators) : ℕ :=
  (if i.suspicious_extension then 1 else 0) + (if i.high_entropy then 1 else 0) +
    (if i.mass_modification then 1 else 0) + (if i.ml_anomaly then 1 else 0)

/-- Python `timedelta.seconds` of a difference of `d` whole seconds: the
timedelta is normalized into days / seconds / microseconds, so the
`seconds` field is `d % 86400` (Euclidean remainder, as in Python). -/
def tdSeconds (d : ℤ) : ℤ := d % 86400

/-- The suffix denylist test of `_check_suspicious_activity` line 157:
`filepath.lower().endswith(('.encrypted', '.locked', '.crypt', '.ransom'))`. -/
def suspiciousExt (filepath : String) : Bool :=
  pyEndsWith (pyLower filepath) ".encrypted" || pyEndsWith (pyLower filepath) ".locked" ||
    pyEndsWith (pyLower filepath) ".crypt" || pyEndsWith (pyLower filepath) ".ransom"

/-- Model of `_check_suspicious_activity` (lines 154-171), applied to the
already-updated operation window `ops`.  `mass_modification` mirrors
line 159-160: `len(self.file_operations) > 15 and
(datetime.now() - self.file_operations[0]).seconds < 10`; the Python
`and` short-circuits, so `self.file_operations[0]` is only read when the
window holds more than 15 entries. -/
def checkSuspiciousActivity (ops : List ℤ) (filepath : String) (now : ℤ)
    (high_entropy ml_anomaly : Bool) : Indicators :=
  { suspicious_extension := suspiciousExt filepath
    high_entropy := high_entropy
    mass_modification :=
      decide (15 < ops.length) &&
        (match ops with
         | [] => false
         | op0 :: _ => decide (tdSeconds (now - op0) < 10))
    ml_anomaly := ml_anomaly }

/-- The window update of `on_modified` lines 179-183: append the current
instant, then keep only entries strictly less than one minute old. -/
def updateWindow (ops : List ℤ) (now : ℤ) : List ℤ :=
  (ops ++ [now]).filter (fun op => decide (now - op < 60))

/-- The indicator set `on_modified` computes for a non-ignored event:
`_check_suspicious_activity` applied to the updated window, with
`high_entropy` delegated to `_detect_encryption` on the event's file. -/
def evalIndicators (s : DefenderState) (e : EventEnv) : Indicators :=
  checkSuspiciousActivity (updateWindow s.file_operations e.now) e.src_path e.now
    (detectEncryption e.readResult) e.ml_anomaly

/-- Model of `on_modified` (lines 173-205).  Returns the new state and
whether the defensive-response sequence fired on this event.  Directory
events and events outside the watched root are ignored (line 175).  The
firing condition (lines 199-201) reads the score written on line 189 and
requires strictly more than the cooldown to have elapsed
(`(current_time - self.last_alert) > self.cooldown_period`). -/
def on_modified (cfg : Config) (s : DefenderState) (e : EventEnv) :
    DefenderState × Bool :=
  if e.is_directory || !(pyStartsWith e.src_path cfg.watch_path) then (s, false)
  else if anyIndicator (evalIndicators s e) then
    if decide (cfg.alert_threshold ≤
          min (s.suspicion_score + scoreIncrease (evalIndicators s e)) MAX_SCORE) &&
        (match s.last_alert with
         | none => true
         | some t => decide (cfg.cooldown_period < e.now - t)) then
      ({ suspicion_score := cfg.alert_threshold / 2
         last_alert := some e.now
         file_operations := updateWindow s.file_operations e.now }, true)
    else
      ({ suspicion_score :=
           min (s.suspicion_score + scoreIncrease (evalIndicators s e)) MAX_SCORE
         last_alert := s.last_alert
         file_operations := updateWindow s.file_operations e.now }, false)
  else
    ({ s with file_operations := updateWindow s.file_operations e.now }, false)

/-- Folding a list of events through the handler. -/
def runEvents (cfg : Config) : DefenderState → List EventEnv → DefenderState
  | s, [] => s
  | s, e :: es => runEvents cfg (on_modified cfg s e).1 es

/-- The instants, in processing order, at which the response sequence
fires while folding a list of events through the handler. -/
def firedTimes (cfg : Config) : DefenderState → List EventEnv → List ℤ
  | _, [] => []
  | s, e :: es =>
    if (on_modified cfg s e).2 then
      e.now :: firedTimes cfg (on_modified cfg s e).1 es
    else firedTimes cfg (on_modified cfg s e).1 es

/-- One entry of `psutil.process_iter(...)` as consumed by
`_terminate_suspicious_processes` (lines 230-245), together with the
outcome of `psutil.Process(pid).kill()` on it. -/
structure ProcInfo where
  name : String
  exe : Option String
  cpu_percent : ℚ
  memory_percent : ℚ
  killResult : Except PyErr Unit

/-- The candidate test of lines 236-238: high CPU or memory use, name not
containing `system` (case-insensitively), and a truthy `exe` whose
lowercase form contains the lowercase watch path. -/
def procMatches (cfg : Config) (p : ProcInfo) : Bool :=
  (decide (70 < p.cpu_percent) || decide (30 < p.memory_percent)) &&
    !(pyIn "system" (pyLower p.name)) &&
    (match p.exe with
     | none => false
     | some e => !(e == "") && pyIn (pyLower cfg.watch_path) (pyLower e))

/-- The kill loop of `_terminate_suspicious_processes`: `NoSuchProcess`
and `AccessDenied` are caught per process and skipped (line 242); any
other exception propagates out of the loop. -/
def terminateGo (cfg : Config) : List ProcInfo → ℕ → Except PyErr ℕ
  | [], n => .ok n
  | p :: rest, n =>
    if procMatches cfg p then
      match p.killResult with
      | .ok _ => terminateGo cfg rest (n + 1)
      | .error .noSuchProcess => terminateGo cfg rest n
      | .error .accessDenied => terminateGo cfg rest n
      | .error e => .error e
    else terminateGo cfg rest n

/-- Model of `_terminate_suspicious_processes` (lines 230-245). -/
def terminateSuspiciousProcesses (cfg : Config) (procs : List ProcInfo) :
    Except PyErr String :=
  match terminateGo cfg procs 0 with
  | .error e => .error e
  | .ok n => .ok ("Terminated " ++ toString n ++ " processes")

/-- Filesystem outcomes consumed by `_quarantine_suspicious_files`:
the results of `os.makedirs`, `os.listdir`, `os.path.isfile`, the
leading-window read `_detect_encryption` performs on each item, and the
`shutil.move` of each item. -/
structure QuarantineEnv where
  makedirsResult : Except PyErr Unit
  listdirResult : Except PyErr (List String)
  isFile : String → Bool
  readFile : String → Except PyErr (List ℕ)
  moveResult : String → Except PyErr Unit

/-- Model of `_quarantine_suspicious_files` (lines 247-266).  Only the
`shutil.move` call sits inside a `try/except` (lines 256-264): a failing
move is logged and the loop continues.  A failure of `os.makedirs` or
`os.listdir` propagates out of the method uncaught. -/
def quarantineSuspiciousFiles (env : QuarantineEnv) : Except PyErr String :=
  match env.makedirsResult with
  | .error e => .error e
  | .ok _ =>
    match env.listdirResult with
    | .error e => .error e
    | .ok items =>
      let n := items.foldl
        (fun acc item =>
          if env.isFile item && detectEncryption (env.readFile item) then
            match env.moveResult item with
            | .ok _ => acc + 1
            | .error _ => acc
          else acc) 0
      .ok ("Quarantined " ++ toString n ++ " files")

/-- Model of `_isolate_network` (lines 268-277): the whole body is inside
`try/except`, so a failure yields the string `"Network isolation failed"`
and never propagates. -/
def isolateNetwork (netshResult : Except PyErr Unit) : String :=
  match netshResult with
  | .ok _ => "Network disabled"
  | .error _ => "Network isolation failed"

/-- Model of `_lock_system` (lines 279-287), same catch-all shape. -/
def lockSystem (lockResult : Except PyErr Unit) : String :=
  match lockResult with
  | .ok _ => "System locked"
  | .error _ => "System lock failed"

/-- Model of `_notify_admin` (lines 289-311): a falsy `admin_email`
short-circuits; otherwise the SMTP delivery sits inside `try/except`. -/
def notifyAdmin (adminEmail : Option String) (smtpResult : Except PyErr Unit) :
    String :=
  match adminEmail with
  | none => "No admin email configured"
  | some addr =>
    if addr == "" then "No admin email configured"
    else
      match smtpResult with
      | .ok _ => "Admin notified"
      | .error _ => "Notification failed"

/-- Environment of one response cycle: the process table with kill
outcomes, the quarantine filesystem outcomes, and the outcomes of the
network, lock and SMTP actuators, plus the configured admin address. -/
structure ResponseEnv where
  procs : List ProcInfo
  quarantine : QuarantineEnv
  netshResult : Except PyErr Unit
  lockResult : Except PyErr Unit
  adminEmail : Option String
  smtpResult : Except PyErr Unit

/-- Model of `_take_defensive_actions` (lines 207-228): the five actions
run in order with no surrounding `try/except`, so an exception escaping
action 1 or 2 aborts the remainder of the sequence; actions 3-5 cannot
raise.  An `.ok` result is the five-entry `actions` list of line 228. -/
def takeDefensiveActions (cfg : Config) (env : ResponseEnv) :
    Except PyErr (List String) :=
  match terminateSuspiciousProcesses cfg env.procs with
  | .error e => .error e
  | .ok a1 =>
    match quarantineSuspiciousFiles env.quarantine with
    | .error e => .error e
    | .ok a2 =>
      .ok [a1, a2, isolateNetwork env.netshResult, lockSystem env.lockResult,
        notifyAdmin env.adminEmail env.smtpResult]

/-- An action-report entry that records a failure outcome. -/
def isFailureMsg (s : String) : Bool :=
  s == "Network isolation failed" || s == "System lock failed" ||
    s == "Notification failed"

/-- Reference configuration: defaults `alert_threshold = 10`,
`cooldown_minutes = 5` (300 seconds), watching the root `/w`. -/
def cfg0 : Config :=
  { watch_path := "/w", alert_threshold := 10, cooldown_period := 300 }

/-- Initial handler state (constructor lines 24-37). -/
def s0 : DefenderState :=
  { suspicion_score := 0, last_alert := none, file_operations := [] }

/-- A modification event at instant `t` on an unreadable file inside the
watched root whose name carries the `.encrypted` denylist suffix, with
the anomaly model also flagging: two true indicators, score weight +4. -/
def evA (t : ℤ) : EventEnv :=
  { is_directory := false
    src_path := "/w/a.encrypted"
    now := t
    readResult := .error .osError
    ml_anomaly := true }

/-- A directory event inside the watched root. -/
def evDir : EventEnv :=
  { is_directory := true
    src_path := "/w/sub"
    now := 1
    readResult := .error .osError
    ml_anomaly := true }

/-- A file event whose path lies outside the watched root. -/
def evOutside : EventEnv :=
  { is_directory := false
    src_path := "/other/a.encrypted"
    now := 1
    readResult := .error .osError
    ml_anomaly := true }

/-- Genuine path containment, following the claim's words rather than the
code: a path lies under the watched root when it equals the root or
extends it past a path separator.  The code instead uses the raw string
prefix test `event.src_path.startswith(self.watch_path)` (line 175); the
two differ on sibling paths that share the root as a string prefix. -/
def underRoot (path root : String) : Bool :=
  path == root || pyStartsWith path (root ++ "/")

/-- A file event on the path `/wx.encrypted`: outside the watched root
`/w` in the path sense, yet sharing it as a raw string prefix. -/
def evSibling : EventEnv :=
  { is_directory := false
    src_path := "/wx.encrypted"
    now := 1
    readResult := .error .osError
    ml_anomaly := false }

/-- Quarantine environment in which every filesystem call succeeds and
the watched root holds no files. -/
def qEnvOk : QuarantineEnv :=
  { makedirsResult := .ok ()
    listdirResult := .ok []
    isFile := fun _ => false
    readFile := fun _ => .error .osError
    moveResult := fun _ => .ok () }

/-- Response environment in which network isolation fails and every
other action succeeds. -/
def envNetFail : ResponseEnv :=
  { procs := []
    quarantine := qEnvOk
    netshResult := .error .osError
    lockResult := .ok ()
    adminEmail := some "admin@example.com"
    smtpResult := .ok () }

/-- Response environment in which `os.listdir` inside the quarantine
action raises `PermissionError` and every other call succeeds. -/
def envListdirFail : ResponseEnv :=
  { procs := []
    quarantine := { qEnvOk with listdirResult := .error .permissionError }
    netshResult := .ok ()
    lockResult := .ok ()
    adminEmail := some "admin@example.com"
    smtpResult := .ok () }

lemma on_modified_ignored (cfg : Config) (s : DefenderState) (e : EventEnv)
    (h : e.is_directory = true ∨ pyStartsWith e.src_path cfg.watch_path = false) :
    on_modified cfg s e = (s, false) := by
  unfold on_modified
  rcases h with h | h
  · rw [if_pos (by simp [h])]
  · rw [if_pos (by simp [h])]

lemma on_modified_step (cfg : Config) (s : DefenderState) (e : EventEnv) :
    ((on_modified cfg s e).2 = true →
        (on_modified cfg s e).1.suspicion_score = cfg.alert_threshold / 2 ∧
        (on_modified cfg s e).1.last_alert = some e.now ∧
        cfg.alert_threshold ≤
          min (s.suspicion_score + scoreIncrease (evalIndicators s e)) MAX_SCORE ∧
        (∀ t, s.last_alert = some t → cfg.cooldown_period < e.now - t)) ∧
    ((on_modified cfg s e).2 = false →
        (on_modified cfg s e).1.last_alert = s.last_alert ∧
        ((on_modified cfg s e).1.suspicion_score = s.suspicion_score ∨
          (on_modified cfg s e).1.suspicion_score =
            min (s.suspicion_score + scoreIncrease (evalIndicators s e)) MAX_SCORE)) := by
  unfold on_modified
  split
  · exact ⟨fun hf => absurd hf (by simp), fun _ => ⟨rfl, Or.inl rfl⟩⟩
  · split
    · split
      · rename_i hcond
        rw [Bool.and_eq_true] at hcond
        refine ⟨fun _ => ⟨rfl, rfl, of_decide_eq_true hcond.1, ?_⟩,
          fun hf => absurd hf (by simp)⟩
        intro t ht
        have h2 := hcond.2
        rw [ht] at h2
        exact of_decide_eq_true h2
      · exact ⟨fun hf => absurd hf (by simp), fun _ => ⟨rfl, Or.inr rfl⟩⟩
    · exact ⟨fun hf => absurd hf (by simp), fun _ => ⟨rfl, Or.inl rfl⟩⟩

lemma on_modified_window (cfg : Config) (s : DefenderState) (e : EventEnv)
    (hd : e.is_directory = false) (hp : pyStartsWith e.src_path cfg.watch_path = true) :
    (on_modified cfg s e).1.file_operations = updateWindow s.file_operations e.now := by
  unfold on_modified
  rw [if_neg (by simp [hd, hp])]
  split
  · split
    · rfl
    · rfl
  · rfl

lemma on_modified_fired_iff (cfg : Config) (s : DefenderState) (e : EventEnv)
    (hd : e.is_directory = false) (hp : pyStartsWith e.src_path cfg.watch_path = true) :
    (on_modified cfg s e).2 = true ↔
      anyIndicator (evalIndicators s e) = true ∧
      cfg.alert_threshold ≤
        min (s.suspicion_score + scoreIncrease (evalIndicators s e)) MAX_SCORE ∧
      (∀ t, s.last_alert = some t → cfg.cooldown_period < e.now - t) := by
  unfold on_modified
  rw [if_neg (by simp [hd, hp])]
  split
  · rename_i hany
    split
    · rename_i hcond
      rw [Bool.and_eq_true] at hcond
      refine ⟨fun _ => ⟨hany, of_decide_eq_true hcond.1, ?_⟩, fun _ => rfl⟩
      intro t ht
      have h2 := hcond.2
      rw [ht] at h2
      exact of_decide_eq_true h2
    · rename_i hcond
      refine ⟨fun hf => absurd hf (by simp), ?_⟩
      rintro ⟨-, h2, h3⟩
      exfalso
      apply hcond
      rw [Bool.and_eq_true]
      refine ⟨decide_eq_true h2, ?_⟩
      cases hla : s.last_alert with
      | none => rfl
      | some t => exact decide_eq_true (h3 t hla)
  · rename_i hany
    refine ⟨fun hf => absurd hf (by simp), ?_⟩
    rintro ⟨h1, -, -⟩
    exact absurd h1 (by simp [hany])

lemma firedTimes_gap (cfg : Config) (h0 : 0 ≤ cfg.cooldown_period) :
    ∀ (es : List EventEnv) (s : DefenderState),
      (∀ t, s.last_alert = some t →
        ∀ u ∈ firedTimes cfg s es, cfg.cooldown_period < u - t) ∧
      (firedTimes cfg s es).Pairwise (fun a b => cfg.cooldown_period < b - a) := by
  intro es
  induction es with
  | nil =>
    intro s
    exact ⟨fun t _ u hu => absurd hu (List.not_mem_nil u), List.Pairwise.nil⟩
  | cons e es ih =>
    intro s
    obtain ⟨ih1, ih2⟩ := ih (on_modified cfg s e).1
    by_cases hf : (on_modified cfg s e).2 = true
    · have hfl : firedTimes cfg s (e :: es) =
          e.now :: firedTimes cfg (on_modified cfg s e).1 es := by
        simp [firedTimes, hf]
      obtain ⟨-, hla, -, hgap⟩ := (on_modified_step cfg s e).1 hf
      have htail : ∀ u ∈ firedTimes cfg (on_modified cfg s e).1 es,
          cfg.cooldown_period < u - e.now := ih1 e.now hla
      rw [hfl]
      constructor
      · intro t ht u hu
        rcases List.mem_cons.mp hu with rfl | hu'
        · exact hgap t ht
        · have h1 := htail u hu'
          have h2 := hgap t ht
          linarith
      · exact List.Pairwise.cons (fun u hu => htail u hu) ih2
    · have hf' : (on_modified cfg s e).2 = false := by
        simpa using hf
      have hfl : firedTimes cfg s (e :: es) =
          firedTimes cfg (on_modified cfg s e).1 es := by
        simp [firedTimes, hf']
      obtain ⟨hla, -⟩ := (on_modified_step cfg s e).2 hf'
      rw [hfl]
      refine ⟨fun t ht u hu => ih1 t ?_ u hu, ih2⟩
      rw [hla]
      exact ht

lemma updateWindow_pairwise (ops : List ℤ) (now : ℤ)
    (hs : ops.Pairwise (· ≤ ·)) (hle : ∀ t ∈ ops, t ≤ now) :
    (updateWindow ops now).Pairwise (· ≤ ·) := by
  unfold updateWindow
  apply List.Pairwise.sublist (List.filter_sublist _)
  rw [List.pairwise_append]
  refine ⟨hs, List.pairwise_singleton _ _, ?_⟩
  intro a ha b hb
  rw [List.mem_singleton] at hb
  subst hb
  exact hle a ha

lemma updateWindow_le (ops : List ℤ) (now : ℤ) (hle : ∀ t ∈ ops, t ≤ now) :
    ∀ t ∈ updateWindow ops now, t ≤ now := by
  intro t ht
  have hm := (List.mem_filter.mp ht).1
  rcases List.mem_append.mp hm with h | h
  · exact hle t h
  · rw [List.mem_singleton] at h
    subst h
    exact le_refl t

lemma updateWindow_recent (ops : List ℤ) (now : ℤ) :
    ∀ t ∈ updateWindow ops now, now - t < 60 := by
  intro t ht
  exact of_decide_eq_true (List.mem_filter.mp ht).2

lemma massMod_iff (w : List ℤ) (path : String) (now : ℤ) (he hm : Bool)
    (hwp : w.Pairwise (· ≤ ·)) (hwle : ∀ t ∈ w, t ≤ now)
    (hw60 : ∀ t ∈ w, now - t < 60) :
    (checkSuspiciousActivity w path now he hm).mass_modification = true ↔
      (15 < w.length ∧ ∀ t ∈ w, now - t < 10) := by
  cases w with
  | nil => simp [checkSuspiciousActivity]
  | cons o rest =>
    have homem : o ∈ o :: rest := List.mem_cons_self o rest
    have h0 : 0 ≤ now - o := by
      have := hwle o homem
      omega
    have h60 : now - o < 60 := hw60 o homem
    have htd : tdSeconds (now - o) = now - o := by
      unfold tdSeconds
      exact Int.emod_eq_of_lt h0 (by omega)
    have hmin : ∀ t ∈ o :: rest, o ≤ t := by
      intro t ht
      rcases List.mem_cons.mp ht with rfl | h'
      · exact le_refl t
      · exact (List.pairwise_cons.mp hwp).1 t h'
    show (decide (15 < (o :: rest).length) && decide (tdSeconds (now - o) < 10)) = true ↔ _
    rw [Bool.and_eq_true, decide_eq_true_iff, decide_eq_true_iff, htd]
    constructor
    · rintro ⟨hlen, hspan⟩
      refine ⟨hlen, ?_⟩
      intro t ht
      have := hmin t ht
      omega
    · rintro ⟨hlen, hall⟩
      exact ⟨hlen, hall o homem⟩

/-- C1 (code bug in `_calculate_entropy`): the claim — and the function's
own docstring — call for a Shannon-entropy estimate that classifies a
uniformly random 8192-byte window as `true`, but the implementation
evaluates `p_x.bit_length()` on the Python `float` `p_x`, which raises
`AttributeError` at the first byte value with positive frequency.
`_detect_encryption` catches the exception and returns `False`.
Evaluating the model at the failing input: an 8192-byte window holding
every byte value exactly 32 times (order-0 entropy 8.0 > 7.0 bits/byte)
makes `_calculate_entropy` raise and is classified `false`, contradicting
the claimed `true`. -/
theorem C1_entropy_bug_eval :
    uniformWindow.length = 8192 ∧
    calculateEntropy uniformWindow = Except.error PyErr.attributeError ∧
    detectEncryption (Except.ok uniformWindow) = false := by
  have hmem : (0 : ℕ) ∈ uniformWindow := by
    unfold uniformWindow
    rw [List.mem_flatten]
    exact ⟨List.range 256, List.mem_replicate.mpr ⟨by omega, rfl⟩,
      List.mem_range.mpr (by omega)⟩
  have hc := calculateEntropy_raises uniformWindow 0 (by omega) hmem
  have hlen : uniformWindow.length = 8192 := by
    unfold uniformWindow
    rw [List.length_flatten, List.map_replicate, List.length_range,
      List.sum_replicate, smul_eq_mul]
  exact ⟨hlen, hc, by simp [detectEncryption, hc]⟩

/-- C2 counterexample: the claim says an empty byte window classifies as
`false`, but `_detect_encryption` returns `True` on an empty window: the
entropy of empty data is 0 (not above 7.0), and the empty window does not
begin with the PNG, JPEG or PDF magic bytes, so the unknown-header branch
(line 146-147) returns `True`. -/
theorem C2_counterexample : detectEncryption (Except.ok []) = true := by decide

/-- C2 amended: for an unreadable file (open or read raises) the
classification returns `false` — the failure is caught by the `except`
branch, logged, and not raised to the caller — but an EMPTY byte window
yields `true`: entropy 0 does not exceed the threshold and the empty
window matches no known-format signature, so the header heuristic flags
it. -/
theorem C2_amended :
    (∀ e : PyErr, detectEncryption (Except.error e) = false) ∧
    detectEncryption (Except.ok []) = true :=
  ⟨fun _ => rfl, by decide⟩

/-- C3 counterexample: the post-event score can DECREASE for an event
whose indicator set has a true entry.  Under the default configuration,
three events carrying two true indicators each (+4) run the score
0 → 4 → 8; the third event reaches 12 ≥ 10, fires the response, and the
firing decay leaves the score at 10 // 2 = 5 < 8: processing an event
with true indicators took the score from 8 down to 5. -/
theorem C3_counterexample :
    anyIndicator (evalIndicators (runEvents cfg0 s0 [evA 1, evA 2]) (evA 3)) = true ∧
    (runEvents cfg0 s0 [evA 1, evA 2]).suspicion_score = 8 ∧
    (runEvents cfg0 s0 [evA 1, evA 2, evA 3]).suspicion_score = 5 ∧
    (runEvents cfg0 s0 [evA 1, evA 2, evA 3]).suspicion_score <
      (runEvents cfg0 s0 [evA 1, evA 2]).suspicion_score :=
  ⟨by decide, by decide, by decide, by decide⟩

/-- C3 amended: the suspicion score never exceeds MAX_SCORE = 20 after
any event (given it was within bounds before), the score increment is
+2 per true indicator clamped at 20, and the score is non-decreasing
across every event on which the response does NOT fire; when the
response fires, the post-event score is `alert_threshold / 2` (integer
division), which can be smaller than the pre-event score. -/
theorem C3_amended :
    (∀ (cfg : Config) (s : DefenderState) (e : EventEnv),
        s.suspicion_score ≤ MAX_SCORE →
        (on_modified cfg s e).1.suspicion_score ≤ MAX_SCORE ∧
        ((on_modified cfg s e).2 = false →
          s.suspicion_score ≤ (on_modified cfg s e).1.suspicion_score) ∧
        ((on_modified cfg s e).2 = true →
          (on_modified cfg s e).1.suspicion_score = cfg.alert_threshold / 2)) ∧
    (∀ i : Indicators, scoreIncrease i = 2 * trueCount i) := by
  constructor
  · intro cfg s e hs
    obtain ⟨h1, h2⟩ := on_modified_step cfg s e
    refine ⟨?_, ?_, fun hf => (h1 hf).1⟩
    · cases hf : (on_modified cfg s e).2
      · rcases (h2 hf).2 with h | h
        · rw [h]; exact hs
        · rw [h]; exact min_le_right _ _
      · obtain ⟨hsc, -, hth, -⟩ := h1 hf
        have hb : cfg.alert_threshold ≤ MAX_SCORE :=
          le_trans hth (min_le_right _ _)
        rw [hsc]
        unfold MAX_SCORE at hb ⊢
        omega
    · intro hf
      rcases (h2 hf).2 with h | h
      · rw [h]
      · rw [h]
        exact le_min (Nat.le_add_right _ _) hs
  · intro i
    rcases i with ⟨a, b, c, d⟩
    cases a <;> cases b <;> cases c <;> cases d <;> rfl

/-- C3 amended, witnessed at the first event of the reference trace. -/
theorem C3_amended_witness :
    (on_modified cfg0 s0 (evA 1)).1.suspicion_score ≤ MAX_SCORE ∧
    ((on_modified cfg0 s0 (evA 1)).2 = false →
      s0.suspicion_score ≤ (on_modified cfg0 s0 (evA 1)).1.suspicion_score) ∧
    ((on_modified cfg0 s0 (evA 1)).2 = true →
      (on_modified cfg0 s0 (evA 1)).1.suspicion_score = cfg0.alert_threshold / 2) :=
  C3_amended.1 cfg0 s0 (evA 1) (by decide)

/-- C4 counterexample: the claim's firing condition uses
`now − last_alert ≥ cooldown`, but the code (line 201) requires a STRICT
inequality `(current_time - self.last_alert) > self.cooldown_period`.
After the reference trace fires at t = 3 (last_alert = 3, cooldown
300 s), an event at t = 303 satisfies the claimed condition — the
post-increment score 17 reaches the threshold 10 and exactly one
cooldown period has elapsed — yet the response does not fire. -/
theorem C4_counterexample :
    (runEvents cfg0 s0 [evA 1, evA 2, evA 3, evA 4, evA 5]).last_alert = some 3 ∧
    cfg0.alert_threshold ≤
      min ((runEvents cfg0 s0 [evA 1, evA 2, evA 3, evA 4, evA 5]).suspicion_score +
        scoreIncrease (evalIndicators
          (runEvents cfg0 s0 [evA 1, evA 2, evA 3, evA 4, evA 5]) (evA 303)))
        MAX_SCORE ∧
    cfg0.cooldown_period ≤ (evA 303).now - 3 ∧
    (on_modified cfg0 (runEvents cfg0 s0 [evA 1, evA 2, evA 3, evA 4, evA 5])
      (evA 303)).2 = false :=
  ⟨by decide, by decide, by decide, by decide⟩

/-- C4 amended: for every non-ignored event, the response fires exactly
when (a) at least one indicator is true, (b) the post-increment score
reaches `alert_threshold`, and (c) `last_alert` is unset or STRICTLY more
than one cooldown period has elapsed since it; consequently, over every
event sequence, any two firings are strictly more than one cooldown
period apart (no double-fire within the cooldown). -/
theorem C4_amended :
    (∀ (cfg : Config) (s : DefenderState) (e : EventEnv),
        e.is_directory = false → pyStartsWith e.src_path cfg.watch_path = true →
        ((on_modified cfg s e).2 = true ↔
          anyIndicator (evalIndicators s e) = true ∧
          cfg.alert_threshold ≤
            min (s.suspicion_score + scoreIncrease (evalIndicators s e)) MAX_SCORE ∧
          (∀ t, s.last_alert = some t → cfg.cooldown_period < e.now - t))) ∧
    (∀ (cfg : Config) (s : DefenderState) (es : List EventEnv),
        0 ≤ cfg.cooldown_period →
        (firedTimes cfg s es).Pairwise (fun a b => cfg.cooldown_period < b - a)) :=
  ⟨on_modified_fired_iff, fun cfg s es h0 => (firedTimes_gap cfg h0 es s).2⟩

/-- C4 amended, witnessed on the reference trace: the third event fires
(by the firing characterization) and the fired instants of the five-event
trace are pairwise more than one cooldown apart. -/
theorem C4_amended_witness :
    (on_modified cfg0 (runEvents cfg0 s0 [evA 1, evA 2]) (evA 3)).2 = true ∧
    (firedTimes cfg0 s0 [evA 1, evA 2, evA 3, evA 4, evA 5]).Pairwise
      (fun a b => cfg0.cooldown_period < b - a) := by
  constructor
  · refine (C4_amended.1 cfg0 (runEvents cfg0 s0 [evA 1, evA 2]) (evA 3) rfl
      (by decide)).mpr ⟨by decide, by decide, ?_⟩
    intro t ht
    have h : (runEvents cfg0 s0 [evA 1, evA 2]).last_alert = none := by decide
    rw [h] at ht
    exact Option.noConfusion ht
  · exact C4_amended.2 cfg0 s0 [evA 1, evA 2, evA 3, evA 4, evA 5] (by decide)

/-- C5: immediately after any firing of the response sequence the
suspicion score equals `alert_threshold / 2` (integer division, mirroring
the Python `//` on line 205), independent of the pre-firing score, and
`last_alert` is set to the firing instant. -/
theorem C5_decay (cfg : Config) (s : DefenderState) (e : EventEnv)
    (hf : (on_modified cfg s e).2 = true) :
    (on_modified cfg s e).1.suspicion_score = cfg.alert_threshold / 2 ∧
    (on_modified cfg s e).1.last_alert = some e.now := by
  obtain ⟨h1, h2, -, -⟩ := (on_modified_step cfg s e).1 hf
  exact ⟨h1, h2⟩

/-- C5, witnessed at the firing event of the reference trace. -/
theorem C5_decay_witness :
    (on_modified cfg0 (runEvents cfg0 s0 [evA 1, evA 2]) (evA 3)).1.suspicion_score =
      cfg0.alert_threshold / 2 ∧
    (on_modified cfg0 (runEvents cfg0 s0 [evA 1, evA 2]) (evA 3)).1.last_alert =
      some (evA 3).now :=
  C5_decay cfg0 (runEvents cfg0 s0 [evA 1, evA 2]) (evA 3) (by decide)

/-- C6 counterexample: the five defensive actions are NOT all
failure-isolated.  `_quarantine_suspicious_files` only wraps the
per-file `shutil.move` in `try/except`; a `PermissionError` from
`os.listdir` propagates out of the quarantine step and out of
`_take_defensive_actions`, so the remaining actions (network isolation,
lock, admin notification) never execute and no five-entry action report
exists. -/
theorem C6_counterexample :
    takeDefensiveActions cfg0 envListdirFail = Except.error PyErr.permissionError :=
  rfl

/-- C6 amended: failures inside network isolation, workstation lock and
admin notification are caught and recorded as that action's outcome, and
per-file move failures are skipped, so whenever process termination and
the quarantine directory listing/creation succeed the action report has
exactly five entries; in particular, when network isolation fails and
every other action succeeds, the report holds five entries with exactly
one failure outcome and admin notification still executes.  However, an
exception escaping the quarantine step's `os.makedirs`/`os.listdir` (or
a kill error other than NoSuchProcess/AccessDenied) aborts the
sequence. -/
theorem C6_amended :
    (∀ (cfg : Config) (env : ResponseEnv) (files : List String) (a1 : String),
        env.quarantine.makedirsResult = Except.ok () →
        env.quarantine.listdirResult = Except.ok files →
        terminateSuspiciousProcesses cfg env.procs = Except.ok a1 →
        ∃ report, takeDefensiveActions cfg env = Except.ok report ∧
          report.length = 5) ∧
    (takeDefensiveActions cfg0 envNetFail =
      Except.ok ["Terminated 0 processes", "Quarantined 0 files",
        "Network isolation failed", "System locked", "Admin notified"] ∧
      List.countP isFailureMsg ["Terminated 0 processes", "Quarantined 0 files",
        "Network isolation failed", "System locked", "Admin notified"] = 1) := by
  constructor
  · intro cfg env files a1 hmk hls ht
    have hq : ∃ a2, quarantineSuspiciousFiles env.quarantine = Except.ok a2 := by
      unfold quarantineSuspiciousFiles
      rw [hmk, hls]
      exact ⟨_, rfl⟩
    obtain ⟨a2, hq⟩ := hq
    refine ⟨[a1, a2, isolateNetwork env.netshResult, lockSystem env.lockResult,
      notifyAdmin env.adminEmail env.smtpResult], ?_, rfl⟩
    unfold takeDefensiveActions
    rw [ht, hq]
  · exact ⟨rfl, by decide⟩

/-- C6 amended, witnessed on the environment in which every filesystem
call succeeds. -/
theorem C6_amended_witness :
    ∃ report, takeDefensiveActions cfg0 envNetFail = Except.ok report ∧
      report.length = 5 :=
  C6_amended.1 cfg0 envNetFail [] "Terminated 0 processes" rfl rfl rfl

/-- C7: on every processed (non-ignored) event, the updated operation
window retains only entries strictly less than 60 seconds older than the
insertion instant, so no retained entry is more than one minute older
than the most recent insertion; and concretely, for events at t = 0 s
and t = 70 s the t = 0 entry is pruned while processing the t = 70
event. -/
theorem C7_retention :
    (∀ (cfg : Config) (s : DefenderState) (e : EventEnv),
        e.is_directory = false → pyStartsWith e.src_path cfg.watch_path = true →
        ∀ op ∈ (on_modified cfg s e).1.file_operations, e.now - op < 60) ∧
    ((runEvents cfg0 s0 [evA 0, evA 70]).file_operations = [70] ∧
      (0 : ℤ) ∉ (runEvents cfg0 s0 [evA 0, evA 70]).file_operations) := by
  constructor
  · intro cfg s e hd hp op hop
    rw [on_modified_window cfg s e hd hp] at hop
    exact of_decide_eq_true (List.mem_filter.mp hop).2
  · exact ⟨by decide, by decide⟩

/-- C7, witnessed on the single retained entry of a one-event trace. -/
theorem C7_retention_witness : (evA 70).now - 70 < 60 :=
  C7_retention.1 cfg0 (runEvents cfg0 s0 [evA 0]) (evA 70) rfl (by decide) 70
    (by decide)

/-- C8: for every evaluated event (the indicator set is computed on the
window obtained by appending the current instant and pruning), the
`mass_modification` indicator is true iff the retained window holds more
than 15 entries AND the span from the oldest retained entry to the
evaluation instant is under 10 seconds — stated as all retained entries
being under 10 seconds old, which is equivalent to the oldest-entry span
under the hypothesis that the window entries arrived in time order.  The
window's `.seconds` field equals the true span because every retained
entry is between 0 and 60 seconds old, far below the 86400-second day
wrap. -/
theorem C8_burst :
    ∀ (s : DefenderState) (e : EventEnv),
      s.file_operations.Pairwise (· ≤ ·) →
      (∀ t ∈ s.file_operations, t ≤ e.now) →
      ((evalIndicators s e).mass_modification = true ↔
        (15 < (updateWindow s.file_operations e.now).length ∧
          ∀ t ∈ updateWindow s.file_operations e.now, e.now - t < 10)) := by
  intro s e hs hle
  exact massMod_iff (updateWindow s.file_operations e.now) e.src_path e.now
    (detectEncryption e.readResult) e.ml_anomaly
    (updateWindow_pairwise _ _ hs hle) (updateWindow_le _ _ hle)
    (updateWindow_recent _ _)

/-- C8, witnessed at a first event from the initial state. -/
theorem C8_burst_witness :
    (evalIndicators s0 (evA 5)).mass_modification = true ↔
      (15 < (updateWindow s0.file_operations (evA 5).now).length ∧
        ∀ t ∈ updateWindow s0.file_operations (evA 5).now, (evA 5).now - t < 10) :=
  C8_burst s0 (evA 5) List.Pairwise.nil
    (fun t ht => absurd ht (List.not_mem_nil t))

/-- C9 counterexample: the handler's "outside the watched root" test is
the raw string prefix check `src_path.startswith(watch_path)` (line 175),
which differs from genuine path containment on sibling paths sharing the
root as a string prefix.  With root `/w`, the event on `/wx.encrypted` —
outside the watched root in the path sense — passes the prefix test, is
processed, appends its instant to the operation window and raises the
suspicion score to 2: the claimed no-state-change is false of the code. -/
theorem C9_counterexample :
    underRoot evSibling.src_path cfg0.watch_path = false ∧
    pyStartsWith evSibling.src_path cfg0.watch_path = true ∧
    (on_modified cfg0 s0 evSibling).1.suspicion_score = 2 ∧
    (on_modified cfg0 s0 evSibling).1.file_operations = [1] ∧
    (on_modified cfg0 s0 evSibling).1 ≠ s0 :=
  ⟨by decide, by decide, by decide, by decide, by decide⟩

/-- C9 amended: a directory event, or an event whose path fails the raw
string prefix test against the watched root, leaves the handler state
(operation window, suspicion score, last-alert timestamp) unchanged and
fires no response; "outside the watched root" is implemented as exactly
this prefix test, so a path outside the root that shares the root as a
string prefix is treated as inside and is processed. -/
theorem C9_amended (cfg : Config) (s : DefenderState) (e : EventEnv)
    (h : e.is_directory = true ∨ pyStartsWith e.src_path cfg.watch_path = false) :
    on_modified cfg s e = (s, false) :=
  on_modified_ignored cfg s e h

/-- C9 amended, witnessed on a directory event and on an event failing
the prefix test. -/
theorem C9_amended_witness :
    on_modified cfg0 s0 evDir = (s0, false) ∧
    on_modified cfg0 s0 evOutside = (s0, false) :=
  ⟨C9_amended cfg0 s0 evDir (Or.inl rfl),
    C9_amended cfg0 s0 evOutside (Or.inr (by decide))⟩

/-- C10 (implicit safety): the window the indicator evaluation sees —
the current instant appended, then entries within the last minute kept —
always contains the current instant (its own age is 0 < 60 s), hence is
never empty, so the burst detector's guarded access to the oldest entry
`self.file_operations[0]` cannot fail. -/
theorem C10_window_nonempty (ops : List ℤ) (now : ℤ) :
    now ∈ updateWindow ops now ∧ updateWindow ops now ≠ [] := by
  have hmem : now ∈ updateWindow ops now := by
    unfold updateWindow
    rw [List.mem_filter]
    exact ⟨List.mem_append.mpr (Or.inr (List.mem_singleton.mpr rfl)),
      decide_eq_true (by omega)⟩
  exact ⟨hmem, List.ne_nil_of_mem hmem⟩

end MLDefender
